import Mathlib

/-!
Shallow embedding of the power-generation query dashboard (`power.py`).

The dataframe is modelled as a `List` of rows kept in file order.  The loader
(`load_data`), the `isin`-mask query (`result`), the aggregates (`total_power`,
`total_fee`, `avg_price`), the CSV export (`convert_df_to_csv`) and the
coverage report (`coverage`) are translated from the source.  Rational numbers
stand in for the float columns; the numeric coercion performed by the
dataframe library on the `year` column (`pd.to_numeric(..., errors="coerce")`
followed by `astype(int)`) is modelled by `toNumeric` (signed decimal numerals
of the forms `digits` and `digits.digits`; anything else coerces to missing)
followed by `truncToInt` (truncation toward zero, as in a C-style cast).
-/

namespace Power

/-- One raw CSV row: the `year` cell is still an uninterpreted string. -/
structure RawRow where
  station : String
  year : String
  month : String
  power_kwh : Rat
  fee_yuan : Rat
  price_yuan_per_kwh : Rat
  deriving DecidableEq

/-- A raw tabular source: its header (column names, in file order) and rows. -/
structure RawTable where
  columns : List String
  rows : List RawRow

/-- One cleaned record after loading: `year` is an integer. -/
structure Record where
  station : String
  year : Int
  month : String
  power_kwh : Rat
  fee_yuan : Rat
  price_yuan_per_kwh : Rat
  deriving DecidableEq

/-- The load-time schema failure, carrying the list of missing columns
(the source raises `ValueError` with this list in the message). -/
structure SchemaError where
  missing : List String
  deriving DecidableEq

/-- `required_cols` from `load_data`. -/
def required_cols : List String :=
  ["station", "year", "month", "power_kwh", "fee_yuan", "price_yuan_per_kwh"]

/-- Value of a list of decimal digit characters. -/
def digitsVal (cs : List Char) : Nat :=
  cs.foldl (fun n c => 10 * n + (c.toNat - 48)) 0

/-- Parse an unsigned decimal numeral `digits` or `digits.digits`. -/
def parseUnsigned (cs : List Char) : Option Rat :=
  match cs.span Char.isDigit with
  | (ds, rest) =>
    if ds.isEmpty then none
    else
      match rest with
      | [] => some ((digitsVal ds : Nat) : Rat)
      | '.' :: fs =>
        if fs.all Char.isDigit then
          some ((digitsVal ds : Rat) + (digitsVal fs : Rat) / ((10 : Rat) ^ fs.length))
        else none
      | _ => none

/-- Model of `pd.to_numeric(cell, errors="coerce")` on a string cell: an
optionally signed decimal numeral parses to its value, anything else (for
example `"2023年"`) coerces to missing (`none`). -/
def toNumeric (s : String) : Option Rat :=
  match s.data with
  | '-' :: cs => (parseUnsigned cs).map (fun q => -q)
  | '+' :: cs => parseUnsigned cs
  | cs => parseUnsigned cs

/-- Model of `astype(int)` on a float value: truncation toward zero. -/
def truncToInt (q : Rat) : Int :=
  q.num.tdiv (q.den : Int)

/-- Row-wise view of the year-cleaning pipeline of `load_data`
(`to_numeric` / `dropna` / `astype(int)`): a row whose `year` cell is not
numeric is dropped, otherwise `year` becomes the truncated integer. -/
def parseRow (r : RawRow) : Option Record :=
  match toNumeric r.year with
  | none => none
  | some q =>
    some ⟨r.station, truncToInt q, r.month, r.power_kwh, r.fee_yuan, r.price_yuan_per_kwh⟩

/-- `load_data`: schema validation, then year cleaning. -/
def load_data (t : RawTable) : Except SchemaError (List Record) :=
  let missing := required_cols.filter (fun c => decide (c ∉ t.columns))
  if missing = [] then
    Except.ok (t.rows.filterMap parseRow)
  else
    Except.error ⟨missing⟩

/-- Model of the pandas `Series.isin` boolean mask over one column. -/
def isin {α : Type} [DecidableEq α] (col : List α) (vals : List α) : List Bool :=
  col.map (fun x => decide (x ∈ vals))

/-- Pointwise conjunction of boolean masks (the `&` of the source). -/
def maskAnd (m1 m2 : List Bool) : List Bool :=
  List.zipWith (fun a b => a && b) m1 m2

/-- Boolean-mask row selection (`df[mask]`). -/
def selectRows : List Record → List Bool → List Record
  | [], _ => []
  | _ :: _, [] => []
  | r :: rs, b :: bs => if b then r :: selectRows rs bs else selectRows rs bs

/-- The query: `result = df[(df["station"].isin(stations)) & (df["year"].isin(years)) & (df["month"].isin(months))]`. -/
def result (df : List Record) (stations : List String) (years : List Int)
    (months : List String) : List Record :=
  selectRows df
    (maskAnd
      (maskAnd (isin (df.map Record.station) stations)
        (isin (df.map Record.year) years))
      (isin (df.map Record.month) months))

/-- `total_power = result["power_kwh"].sum()`. -/
def total_power (res : List Record) : Rat :=
  (res.map Record.power_kwh).sum

/-- `total_fee = result["fee_yuan"].sum()`. -/
def total_fee (res : List Record) : Rat :=
  (res.map Record.fee_yuan).sum

/-- `avg_price = total_fee / total_power if total_power > 0 else 0`. -/
def avg_price (res : List Record) : Rat :=
  if 0 < total_power res then total_fee res / total_power res else 0

/-- Outcome of pressing the query button: either the empty-result warning or
the displayed result with its three metrics. -/
inductive QueryOutcome where
  | warning (msg : String)
  | display (rows : List Record) (tp tf ap : Rat)
  deriving DecidableEq

/-- The empty-result hint shown by `st.warning` (text abridged). -/
def emptyWarning : String := "未找到符合条件的数据，建议检查筛选条件是否合理"

/-- The query-button branch: warn on an empty result, otherwise display the
rows and the aggregates. -/
def run_query (df : List Record) (ss : List String) (ys : List Int)
    (ms : List String) : QueryOutcome :=
  let res := result df ss ys ms
  if res = [] then QueryOutcome.warning emptyWarning
  else QueryOutcome.display res (total_power res) (total_fee res) (avg_price res)

/-- The query step viewed as a state transformer on the loaded table: the
source never rebinds `df`, so the table component is returned unchanged. -/
def run_query_state (df : List Record) (ss : List String) (ys : List Int)
    (ms : List String) : List Record × QueryOutcome :=
  (df, run_query df ss ys ms)

/-- The exported header: the column names in input order. -/
def csvHeader : List String := required_cols

/-- Rendering of a numeric cell (stands in for the float formatting of the
dataframe library; its exact text is irrelevant to the properties proved). -/
def renderRat (q : Rat) : String :=
  if q.den = 1 then toString q.num else toString q.num ++ "/" ++ toString q.den

/-- Rendering of one record as CSV cells, in the input column order. -/
def renderRecord (r : Record) : List String :=
  [r.station, toString r.year, r.month, renderRat r.power_kwh,
    renderRat r.fee_yuan, renderRat r.price_yuan_per_kwh]

/-- One CSV line: comma-joined cells plus a line break. -/
def csvLine (cells : List String) : String :=
  String.intercalate "," cells ++ "\n"

/-- `convert_df_to_csv`: `df.to_csv(index=False)` — the header line followed by
one line per row, in order. -/
def convert_df_to_csv (rows : List Record) : String :=
  csvLine csvHeader ++ String.join (rows.map (fun r => csvLine (renderRecord r)))

/-- File name passed to `st.download_button`. -/
def download_file_name : String := "query_result.csv"

/-- The downloaded artifact: the UTF-8 encoding of the CSV text
(`.encode("utf-8")`). -/
def exportBytes (rows : List Record) : ByteArray :=
  (convert_df_to_csv rows).toUTF8

/-- One step of `groupby(["station", "year"]).size()`: bump the count of a key
in an association list of group sizes. -/
def insertCount : List ((String × Int) × Nat) → (String × Int) → List ((String × Int) × Nat)
  | [], k => [(k, 1)]
  | (k2, n) :: rest, k =>
    if k2 = k then (k2, n + 1) :: rest else (k2, n) :: insertCount rest k

/-- `df.groupby(["station", "year"]).size()`: group sizes keyed by
(station, year). -/
def groupby_size (df : List Record) : List ((String × Int) × Nat) :=
  df.foldl (fun acc r => insertCount acc (r.station, r.year)) []

/-- Lookup in the group-size table, defaulting to 0 — the `unstack(fill_value=0)`
view of a cell. -/
def lookup0 : List ((String × Int) × Nat) → (String × Int) → Nat
  | [], _ => 0
  | (k2, n) :: rest, k => if k2 = k then n else lookup0 rest k

/-- Cell (s, y) of the coverage matrix
(`df.groupby(["station", "year"]).size().unstack(fill_value=0)`). -/
def coverage (df : List Record) (s : String) (y : Int) : Nat :=
  lookup0 (groupby_size df) (s, y)

/-- Concrete two-row table used by the witnesses (the aggregate example of the
spec: powers 100 and 200, fees 50 and 80). -/
def aggDf : List Record :=
  [⟨"A", 2023, "1月", 100, 50, 1 / 2⟩, ⟨"A", 2023, "2月", 200, 80, 2 / 5⟩]

/-- A raw table whose header lacks `fee_yuan`. -/
def missingFeeTable : RawTable :=
  ⟨["station", "year", "month", "power_kwh", "price_yuan_per_kwh"], []⟩

/-- A raw table whose `year` column holds `"2023年"` and `"2023"`. -/
def yearTable : RawTable :=
  ⟨required_cols,
    [⟨"A", "2023年", "1月", 100, 50, 1 / 2⟩, ⟨"B", "2023", "2月", 200, 80, 2 / 5⟩]⟩

/-- A raw table whose `year` column holds the non-integer numeral `"2023.5"`. -/
def halfYearTable : RawTable :=
  ⟨required_cols, [⟨"A", "2023.5", "1月", 100, 50, 1 / 2⟩]⟩

/-- Concrete coverage example: station "A" with 6 rows in 2022 and 12 in 2023. -/
def covDf : List Record :=
  List.replicate 6 ⟨"A", 2022, "1月", 100, 50, 1 / 2⟩ ++
    List.replicate 12 ⟨"A", 2023, "1月", 100, 50, 1 / 2⟩

deriving instance DecidableEq for Except

/-! ## Helper lemmas -/

theorem selectRows_map (p : Record → Bool) :
    ∀ df : List Record, selectRows df (df.map p) = df.filter p := by
  intro df
  induction df with
  | nil => rfl
  | cons r rs ih =>
    cases hp : p r <;> simp [selectRows, List.filter_cons, hp, ih]

theorem maskAnd_map (f g : Record → Bool) :
    ∀ l : List Record, maskAnd (l.map f) (l.map g) = l.map (fun x => f x && g x) := by
  intro l
  induction l with
  | nil => rfl
  | cons x xs ih => simp [maskAnd]

theorem result_eq_filter (df : List Record) (ss : List String) (ys : List Int)
    (ms : List String) :
    result df ss ys ms
      = df.filter (fun r =>
          decide (r.station ∈ ss) && decide (r.year ∈ ys) && decide (r.month ∈ ms)) := by
  unfold result isin
  rw [List.map_map, List.map_map, List.map_map, maskAnd_map, maskAnd_map, selectRows_map]
  rfl

/-! ## Claim theorems -/

/-- C1: for every loaded table and every triple of selection sets, the query
result is exactly the subsequence of records whose station, year and month are
each in the corresponding selection set, with records kept in original
order. -/
theorem result_exactly_matching_subsequence (df : List Record) (ss : List String)
    (ys : List Int) (ms : List String) :
    (result df ss ys ms).Sublist df ∧
    result df ss ys ms
      = df.filter (fun r =>
          decide (r.station ∈ ss) && decide (r.year ∈ ys) && decide (r.month ∈ ms)) ∧
    ∀ r : Record,
      r ∈ result df ss ys ms ↔ r ∈ df ∧ r.station ∈ ss ∧ r.year ∈ ys ∧ r.month ∈ ms := by
  have h := result_eq_filter df ss ys ms
  refine ⟨h ▸ List.filter_sublist df, h, fun r => ?_⟩
  rw [h, List.mem_filter]
  simp [and_assoc]

/-- C1 witness: the single-match example of the spec, instantiated. -/
theorem result_exactly_matching_subsequence_witness :
    (result aggDf ["A"] [2023] ["1月"]).Sublist aggDf ∧
    result aggDf ["A"] [2023] ["1月"]
      = aggDf.filter (fun r =>
          decide (r.station ∈ ["A"]) && decide (r.year ∈ [2023]) &&
            decide (r.month ∈ ["1月"])) ∧
    ∀ r : Record,
      r ∈ result aggDf ["A"] [2023] ["1月"] ↔
        r ∈ aggDf ∧ r.station ∈ ["A"] ∧ r.year ∈ [2023] ∧ r.month ∈ ["1月"] :=
  result_exactly_matching_subsequence aggDf ["A"] [2023] ["1月"]

/-- C5: if any one of the three selection sets is empty, the query result is
empty (empty selection means match nothing). -/
theorem empty_selection_matches_nothing (df : List Record) (ss : List String)
    (ys : List Int) (ms : List String) (h : ss = [] ∨ ys = [] ∨ ms = []) :
    result df ss ys ms = [] := by
  rw [result_eq_filter]
  rcases h with h | h | h <;> subst h <;> simp [List.filter_eq_nil_iff]

/-- C5 witness: an empty station selection on a concrete table yields no
rows. -/
theorem empty_selection_matches_nothing_witness :
    result aggDf [] [2023] ["1月"] = [] :=
  empty_selection_matches_nothing aggDf [] [2023] ["1月"] (Or.inl rfl)

/-- C2: over every non-empty query result, `total_power` is the sum of the
`power_kwh` column, `total_fee` is the sum of the `fee_yuan` column, and
`avg_price` is `total_fee / total_power` when `total_power > 0` and `0`
otherwise, so no division by zero occurs. -/
theorem aggregates_over_result (df : List Record) (ss : List String) (ys : List Int)
    (ms : List String) (_h : result df ss ys ms ≠ []) :
    total_power (result df ss ys ms) = ((result df ss ys ms).map Record.power_kwh).sum ∧
    total_fee (result df ss ys ms) = ((result df ss ys ms).map Record.fee_yuan).sum ∧
    (0 < total_power (result df ss ys ms) →
      avg_price (result df ss ys ms)
        = total_fee (result df ss ys ms) / total_power (result df ss ys ms)) ∧
    (¬ 0 < total_power (result df ss ys ms) → avg_price (result df ss ys ms) = 0) := by
  refine ⟨rfl, rfl, fun h0 => ?_, fun h0 => ?_⟩ <;> simp [avg_price, h0]

unseal Rat.add Rat.mul Rat.inv in
/-- C2 witness: the aggregate example of the spec — powers 100 and 200, fees
50 and 80 give totals 300 and 130 and an average price of 13 / 30. -/
theorem aggregates_over_result_witness :
    total_power (result aggDf ["A"] [2023] ["1月", "2月"]) = 300 ∧
    total_fee (result aggDf ["A"] [2023] ["1月", "2月"]) = 130 ∧
    avg_price (result aggDf ["A"] [2023] ["1月", "2月"]) = 13 / 30 ∧
    (total_power (result aggDf ["A"] [2023] ["1月", "2月"])
        = ((result aggDf ["A"] [2023] ["1月", "2月"]).map Record.power_kwh).sum ∧
      total_fee (result aggDf ["A"] [2023] ["1月", "2月"])
        = ((result aggDf ["A"] [2023] ["1月", "2月"]).map Record.fee_yuan).sum ∧
      (0 < total_power (result aggDf ["A"] [2023] ["1月", "2月"]) →
        avg_price (result aggDf ["A"] [2023] ["1月", "2月"])
          = total_fee (result aggDf ["A"] [2023] ["1月", "2月"])
              / total_power (result aggDf ["A"] [2023] ["1月", "2月"])) ∧
      (¬ 0 < total_power (result aggDf ["A"] [2023] ["1月", "2月"]) →
        avg_price (result aggDf ["A"] [2023] ["1月", "2月"]) = 0)) :=
  ⟨by decide, by decide, by decide,
    aggregates_over_result aggDf ["A"] [2023] ["1月", "2月"] (by decide)⟩

/-- C3: loading fails with a SchemaError exactly when a required column is
absent, and the error lists exactly the missing required columns. -/
theorem load_schema_error_iff (t : RawTable) :
    ((load_data t).isOk ↔ ∀ c ∈ required_cols, c ∈ t.columns) ∧
    ∀ e, load_data t = Except.error e →
      e.missing = required_cols.filter (fun c => decide (c ∉ t.columns)) ∧
      e.missing ≠ [] ∧
      ∀ c, c ∈ e.missing ↔ c ∈ required_cols ∧ c ∉ t.columns := by
  have hmem : ∀ c, c ∈ required_cols.filter (fun c => decide (c ∉ t.columns)) ↔
      c ∈ required_cols ∧ c ∉ t.columns := by
    intro c
    rw [List.mem_filter]
    simp
  have hld : load_data t
      = if required_cols.filter (fun c => decide (c ∉ t.columns)) = []
        then Except.ok (t.rows.filterMap parseRow)
        else Except.error ⟨required_cols.filter (fun c => decide (c ∉ t.columns))⟩ := rfl
  by_cases hEmpty : required_cols.filter (fun c => decide (c ∉ t.columns)) = []
  · rw [if_pos hEmpty] at hld
    constructor
    · rw [hld]
      refine iff_of_true rfl ?_
      intro c hc
      by_contra hc2
      have : c ∈ required_cols.filter (fun c => decide (c ∉ t.columns)) :=
        (hmem c).mpr ⟨hc, hc2⟩
      rw [hEmpty] at this
      exact absurd this (List.not_mem_nil c)
    · intro e he
      rw [hld] at he
      exact absurd he (by simp)
  · rw [if_neg hEmpty] at hld
    constructor
    · rw [hld]
      apply iff_of_false
      · simp [Except.isOk, Except.toBool]
      · intro hall
        obtain ⟨c, hc⟩ := List.exists_mem_of_ne_nil _ hEmpty
        obtain ⟨hc1, hc2⟩ := (hmem c).mp hc
        exact hc2 (hall c hc1)
    · intro e he
      rw [hld] at he
      injection he with he2
      subst he2
      exact ⟨rfl, hEmpty, hmem⟩

/-- C3 witness: a header lacking `fee_yuan` is rejected with a SchemaError
naming exactly `fee_yuan`. -/
theorem load_schema_error_iff_witness :
    load_data missingFeeTable = Except.error ⟨["fee_yuan"]⟩ ∧
    (SchemaError.mk ["fee_yuan"]).missing ≠ [] ∧
    ("fee_yuan" ∈ (SchemaError.mk ["fee_yuan"]).missing ↔
      "fee_yuan" ∈ required_cols ∧ "fee_yuan" ∉ missingFeeTable.columns) := by
  have h := (load_schema_error_iff missingFeeTable).2 ⟨["fee_yuan"]⟩ (by decide)
  exact ⟨by decide, h.2.1, h.2.2 "fee_yuan"⟩

/-- C4: a successful load keeps exactly the rows whose year cell is numeric,
each with an integer year obtained from its raw cell, and every row of any
query result is one of the loaded rows, so the year-is-integer invariant is
preserved by filtering. -/
theorem load_year_always_integer (t : RawTable) (rows : List Record)
    (h : load_data t = Except.ok rows) :
    rows = t.rows.filterMap parseRow ∧
    (∀ r ∈ rows, ∃ raw ∈ t.rows, ∃ q : Rat,
        toNumeric raw.year = some q ∧ r.year = truncToInt q) ∧
    (∀ (ss : List String) (ys : List Int) (ms : List String) (r : Record),
      r ∈ result rows ss ys ms → r ∈ rows) := by
  have hrows : rows = t.rows.filterMap parseRow := by
    have hld : load_data t
        = if required_cols.filter (fun c => decide (c ∉ t.columns)) = []
          then Except.ok (t.rows.filterMap parseRow)
          else Except.error ⟨required_cols.filter (fun c => decide (c ∉ t.columns))⟩ := rfl
    by_cases hc : required_cols.filter (fun c => decide (c ∉ t.columns)) = []
    · rw [hld, if_pos hc] at h
      injection h with h2
      exact h2.symm
    · rw [hld, if_neg hc] at h
      exact absurd h (by simp)
  refine ⟨hrows, ?_, ?_⟩
  · intro r hr
    rw [hrows] at hr
    obtain ⟨raw, hraw, hparse⟩ := List.mem_filterMap.mp hr
    refine ⟨raw, hraw, ?_⟩
    unfold parseRow at hparse
    cases hq : toNumeric raw.year with
    | none => rw [hq] at hparse; exact absurd hparse (by simp)
    | some q =>
      rw [hq] at hparse
      refine ⟨q, rfl, ?_⟩
      cases hparse
      rfl
  · intro ss ys ms r hr
    rw [result_eq_filter, List.mem_filter] at hr
    exact hr.1

unseal Rat.add Rat.mul Rat.inv in
/-- C4 witness: loading the table whose year column holds `"2023年"` and
`"2023"` retains only the `"2023"` row, with year the integer 2023. -/
theorem load_year_always_integer_witness :
    load_data yearTable = Except.ok [⟨"B", 2023, "2月", 200, 80, 2 / 5⟩] ∧
    [(⟨"B", 2023, "2月", 200, 80, 2 / 5⟩ : Record)] = yearTable.rows.filterMap parseRow :=
  ⟨by decide,
    (load_year_always_integer yearTable [⟨"B", 2023, "2月", 200, 80, 2 / 5⟩]
        (by decide)).1⟩

unseal Rat.add Rat.mul Rat.inv in
/-- C10: a row whose year cell parses as a non-integer numeral is not dropped:
non-numeric is the only dropping criterion, a numeric year becomes its
truncation toward zero (floor, on the nonnegative values at hand), and the
concrete cell `"2023.5"` is retained as year 2023. -/
theorem noninteger_year_truncated_not_dropped :
    (∀ raw : RawRow, parseRow raw = none ↔ toNumeric raw.year = none) ∧
    (∀ (raw : RawRow) (q : Rat), toNumeric raw.year = some q →
      parseRow raw = some ⟨raw.station, truncToInt q, raw.month, raw.power_kwh,
        raw.fee_yuan, raw.price_yuan_per_kwh⟩) ∧
    (∀ q : Rat, 0 ≤ q → truncToInt q = ⌊q⌋) ∧
    load_data halfYearTable = Except.ok [⟨"A", 2023, "1月", 100, 50, 1 / 2⟩] := by
  refine ⟨?_, ?_, ?_, ?_⟩
  · intro raw
    unfold parseRow
    cases toNumeric raw.year <;> simp
  · intro raw q h
    unfold parseRow
    rw [h]
  · intro q hq
    unfold truncToInt
    rw [Int.tdiv_eq_ediv (Rat.num_nonneg.mpr hq) (by positivity)]
    exact Rat.floor_def.symm
  · decide

unseal Rat.add Rat.mul Rat.inv in
/-- C10 witness: the row with year cell `"2023.5"` is kept and its year is the
truncation 2023. -/
theorem noninteger_year_truncated_not_dropped_witness :
    parseRow ⟨"A", "2023.5", "1月", 100, 50, 1 / 2⟩
      = some ⟨"A", 2023, "1月", 100, 50, 1 / 2⟩ := by
  have h := noninteger_year_truncated_not_dropped.2.1
    ⟨"A", "2023.5", "1月", 100, 50, 1 / 2⟩ (4047 / 2) (by decide)
  rw [h]
  decide

/-- C6: the export is the CSV text of exactly the result rows — the header
line (input column order) followed by one line per row in result order, the
empty result giving the header line alone — encoded as UTF-8 and offered
under the name `query_result.csv`. -/
theorem export_csv_shape (rows : List Record) :
    convert_df_to_csv rows
      = csvLine csvHeader ++ String.join (rows.map (fun r => csvLine (renderRecord r))) ∧
    (rows.map (fun r => csvLine (renderRecord r))).length = rows.length ∧
    (rows = [] → convert_df_to_csv rows = String.intercalate "," required_cols ++ "\n") ∧
    csvHeader = required_cols ∧
    download_file_name = "query_result.csv" ∧
    exportBytes rows = (convert_df_to_csv rows).toUTF8 := by
  refine ⟨rfl, List.length_map _ _, fun h => ?_, rfl, rfl, rfl⟩
  subst h
  show csvLine csvHeader ++ String.join [] = String.intercalate "," required_cols ++ "\n"
  rfl

/-- C6 witness: exporting the empty result yields only the header row. -/
theorem export_csv_shape_witness :
    convert_df_to_csv [] = String.intercalate "," required_cols ++ "\n" :=
  (export_csv_shape []).2.2.1 rfl

/-- C7: a query matching zero rows completes normally with the distinct
empty-result warning outcome, which differs from every display outcome; the
only other failure in the program is the load-time schema error. -/
theorem empty_result_is_warning_not_error (df : List Record) (ss : List String)
    (ys : List Int) (ms : List String) :
    (result df ss ys ms = [] → run_query df ss ys ms = QueryOutcome.warning emptyWarning) ∧
    (result df ss ys ms ≠ [] →
      run_query df ss ys ms
        = QueryOutcome.display (result df ss ys ms) (total_power (result df ss ys ms))
            (total_fee (result df ss ys ms)) (avg_price (result df ss ys ms))) ∧
    (∀ (msg : String) (rows : List Record) (tp tf ap : Rat),
      QueryOutcome.warning msg ≠ QueryOutcome.display rows tp tf ap) := by
  refine ⟨fun h => ?_, fun h => ?_, fun _ _ _ _ _ => by simp⟩ <;>
    simp [run_query, h]

/-- C7 witness: an all-empty selection gives the warning outcome on a concrete
table. -/
theorem empty_result_is_warning_not_error_witness :
    run_query aggDf [] [] [] = QueryOutcome.warning emptyWarning :=
  (empty_result_is_warning_not_error aggDf [] [] []).1 (by decide)

/-- C9: the query is pure — the loaded table component of the state is
returned unchanged, the result rows are rows of the table, and re-running on
the same table and selections produces the identical state and outcome. -/
theorem query_has_no_side_effect (df : List Record) (ss : List String)
    (ys : List Int) (ms : List String) :
    (run_query_state df ss ys ms).1 = df ∧
    (result df ss ys ms).Sublist df ∧
    ∀ df2, df2 = df → run_query_state df2 ss ys ms = run_query_state df ss ys ms := by
  refine ⟨rfl, ?_, fun df2 h => by rw [h]⟩
  rw [result_eq_filter]
  exact List.filter_sublist df

/-- C9 witness: a repeated concrete query leaves the table intact and returns
the same state. -/
theorem query_has_no_side_effect_witness :
    (run_query_state aggDf ["A"] [2023] ["1月"]).1 = aggDf ∧
    run_query_state aggDf ["A"] [2023] ["1月"] = run_query_state aggDf ["A"] [2023] ["1月"] :=
  ⟨(query_has_no_side_effect aggDf ["A"] [2023] ["1月"]).1,
    (query_has_no_side_effect aggDf ["A"] [2023] ["1月"]).2.2 aggDf rfl⟩

theorem lookup0_insertCount (acc : List ((String × Int) × Nat)) (k k2 : String × Int) :
    lookup0 (insertCount acc k) k2 = lookup0 acc k2 + (if k = k2 then 1 else 0) := by
  induction acc with
  | nil =>
    by_cases h : k = k2 <;> simp [insertCount, lookup0, h]
  | cons p rest ih =>
    obtain ⟨k3, n⟩ := p
    by_cases h3 : k3 = k
    · subst h3
      by_cases h2 : k3 = k2 <;> simp [insertCount, lookup0, h2]
    · have hne : ¬(k3 = k) := h3
      by_cases h2 : k3 = k2
      · subst h2
        have : ¬(k = k3) := fun he => h3 he.symm
        simp [insertCount, lookup0, h3, this]
      · simp [insertCount, lookup0, h3, h2, ih]

theorem lookup0_groupby_aux (df : List Record) :
    ∀ (acc : List ((String × Int) × Nat)) (k : String × Int),
      lookup0 (df.foldl (fun a r => insertCount a (r.station, r.year)) acc) k
        = lookup0 acc k + df.countP (fun r => decide ((r.station, r.year) = k)) := by
  induction df with
  | nil => intro acc k; simp
  | cons r rest ih =>
    intro acc k
    simp only [List.foldl_cons, List.countP_cons]
    rw [ih, lookup0_insertCount]
    by_cases h : (r.station, r.year) = k
    · simp [h]
      omega
    · simp [h]

/-- C8: the coverage cell of (station, year) is the number of records with
that station and year, and a combination absent from the data shows 0. -/
theorem coverage_counts_records (df : List Record) (s : String) (y : Int) :
    coverage df s y = (df.filter (fun r => decide (r.station = s ∧ r.year = y))).length ∧
    ((∀ r ∈ df, ¬(r.station = s ∧ r.year = y)) → coverage df s y = 0) := by
  have h1 : coverage df s y = df.countP (fun r => decide ((r.station, r.year) = (s, y))) := by
    unfold coverage groupby_size
    rw [lookup0_groupby_aux]
    simp [lookup0]
  constructor
  · rw [h1, List.countP_eq_length_filter]
    congr 1
    apply List.filter_congr
    intro x _
    simp [Prod.ext_iff]
  · intro hnone
    rw [h1, List.countP_eq_zero]
    intro r hr
    simp [Prod.ext_iff]
    intro hs
    exact fun hy => hnone r hr ⟨hs, hy⟩

/-- C8 witness: station "A" with 6 rows in 2022 and 12 in 2023 yields cells
(A, 2022) = 6 and (A, 2023) = 12, and the absent combination (B, 1999) shows
0. -/
theorem coverage_counts_records_witness :
    coverage covDf "A" 2022 = 6 ∧
    coverage covDf "A" 2023 = 12 ∧
    coverage covDf "B" 1999 = 0 ∧
    coverage covDf "A" 2022
      = (covDf.filter (fun r => decide (r.station = "A" ∧ r.year = 2022))).length :=
  ⟨by decide, by decide,
    (coverage_counts_records covDf "B" 1999).2 (by decide),
    (coverage_counts_records covDf "A" 2022).1⟩

end Power
